import Mathlib

/-
Verification of the digital-life repository (src/main.py) against its
natural-language specification.

The program is a pygame bootstrap stub:

  class DisplayManager:
      def __init__(self):
          pygame.init()
          self.load_config()
          self.screen = pygame.display.set_mode(
              (self.config['display']['width'],
               self.config['display']['height']),
              pygame.FULLSCREEN if self.config['display']['fullscreen'] else 0)
          pygame.display.set_caption("Digital Life")

      def load_config(self):
          config_path = Path(__file__).parent.parent / 'config' / 'display.yml'
          with open(config_path) as f:
              self.config = yaml.safe_load(f)

      def run(self):
          while True:
              for event in pygame.event.get():
                  if event.type == pygame.QUIT or (
                      event.type == pygame.KEYDOWN and event.key == pygame.K_ESCAPE):
                      pygame.quit()
                      sys.exit()
              self.screen.fill((0, 0, 0))
              pygame.display.flip()

The shallow embedding below models the parsed YAML document, the file
system state at the hard-coded config path, the effect trace of the
constructor and the event loop, and the drawable surface.  The spec's
ConfigError taxon (spec section 7) abstracts the uncaught Python
exceptions the code lets propagate (FileNotFoundError from open, a YAML
parse error from yaml.safe_load, KeyError/TypeError from the subscript
chain); an uncaught exception terminates a Python process with exit
status 1, and sys.exit() with no argument terminates it with status 0.
-/

namespace DigitalLife

/-- Parsed YAML values, as produced by yaml.safe_load: scalars and
string-keyed mappings (the shapes relevant to this program). -/
inductive Yaml where
  | nullV : Yaml
  | boolV (b : Bool) : Yaml
  | intV (n : Int) : Yaml
  | strV (s : String) : Yaml
  | mapV (entries : List (String × Yaml)) : Yaml

/-- Python subscripting d[k]: yields the value when the container is a
mapping holding the key, and fails (KeyError / TypeError) otherwise. -/
def Yaml.getKey : Yaml → String → Option Yaml
  | .mapV entries, k => entries.lookup k
  | _, _ => none

/-- Python truthiness of a parsed YAML value, as used by the conditional
expression choosing the display flags. -/
def Yaml.truthy : Yaml → Bool
  | .nullV => false
  | .boolV b => b
  | .intV n => n != 0
  | .strV s => s != ""
  | .mapV entries => !entries.isEmpty

/-- State of the file system at the hard-coded config path
config/display.yml: absent, present but not parseable as YAML, or
present and parsed to a document. -/
inductive FileState where
  | absent : FileState
  | unreadable : FileState
  | parsed (doc : Yaml) : FileState

/-- The spec's ConfigError taxon: the fatal configuration failures the
code surfaces as uncaught Python exceptions. -/
inductive ConfigError where
  | fileNotFound : ConfigError
  | parseError : ConfigError
  | missingKey (path : List String) : ConfigError
deriving Repr, DecidableEq

/-- DisplayManager.load_config: open the config file and store
yaml.safe_load of its contents, with no validation of the result. -/
def load_config : FileState → Except ConfigError Yaml
  | .absent => .error .fileNotFound
  | .unreadable => .error .parseError
  | .parsed doc => .ok doc

/-- Observable effects of the program on the graphics subsystem, the
file system and the process. -/
inductive Effect where
  | initSubsystem : Effect
  | readConfigFile : Effect
  | setMode (width height : Yaml) (flags : Int) : Effect
  | setCaption (caption : String) : Effect
  | quitSubsystem : Effect
  | fill (r g b : Nat) : Effect
  | flip : Effect
  | exitProcess (code : Nat) : Effect

/-- pygame.FULLSCREEN, the display-mode flag requesting an exclusive
fullscreen surface (pygame's value of the constant). -/
def FULLSCREEN : Int := -2147483648

/-- pygame.K_ESCAPE, the key code of the Escape key. -/
def K_ESCAPE : Nat := 27

/-- The config subscript chain self.config['display'][k]. -/
def displayField (cfg : Yaml) (k : String) : Option Yaml :=
  (cfg.getKey "display").bind (fun d => d.getKey k)

/-- State the constructor stores on success: self.config (the screen
handle is modelled separately as a Surface). -/
structure DMState where
  config : Yaml

/-- DisplayManager.__init__: pygame.init(), then load_config (one file
read), then set_mode with the raw width/height values from the document
and FULLSCREEN or 0 per truthiness of the fullscreen value, then
set_caption.  A failure in load_config or in the subscript chain
propagates before set_mode is reached; subscripts are evaluated in the
order width, height, fullscreen, matching Python's left-to-right
argument evaluation. -/
def dmInit (fs : FileState) : List Effect × Except ConfigError DMState :=
  match load_config fs with
  | .error e => ([Effect.initSubsystem, Effect.readConfigFile], .error e)
  | .ok cfg =>
    match displayField cfg "width", displayField cfg "height",
          displayField cfg "fullscreen" with
    | none, _, _ =>
      ([Effect.initSubsystem, Effect.readConfigFile],
       .error (.missingKey ["display", "width"]))
    | some _, none, _ =>
      ([Effect.initSubsystem, Effect.readConfigFile],
       .error (.missingKey ["display", "height"]))
    | some _, some _, none =>
      ([Effect.initSubsystem, Effect.readConfigFile],
       .error (.missingKey ["display", "fullscreen"]))
    | some w, some h, some f =>
      ([Effect.initSubsystem, Effect.readConfigFile,
        Effect.setMode w h (if f.truthy then FULLSCREEN else 0),
        Effect.setCaption "Digital Life"],
       .ok { config := cfg })

/-- Pending events drained by pygame.event.get(): a window-close event
(pygame.QUIT), a key press (pygame.KEYDOWN) with its key code, or any
other event type. -/
inductive PyEvent where
  | quitEvent : PyEvent
  | keyDown (key : Nat) : PyEvent
  | otherEvent (ty : Nat) : PyEvent
deriving Repr, DecidableEq

/-- The quit-intent test of the loop body:
event.type == QUIT or (event.type == KEYDOWN and event.key == K_ESCAPE). -/
def quitIntent : PyEvent → Bool
  | .quitEvent => true
  | .keyDown k => k == K_ESCAPE
  | .otherEvent _ => false

/-- The drawable surface: self.screen.  Only its pixel contents are
observable; surface.fill with no rect argument overwrites every pixel. -/
structure Surface where
  pixels : Nat → Nat → Nat × Nat × Nat

/-- surface.fill(color) with no rect: the whole surface becomes the
given color, independent of its previous contents. -/
def Surface.fill (_s : Surface) (c : Nat × Nat × Nat) : Surface :=
  ⟨fun _ _ => c⟩

/-- The all-black surface produced by self.screen.fill((0, 0, 0)). -/
def blackSurface : Surface := ⟨fun _ _ => (0, 0, 0)⟩

/-- DisplayManager.run, driven by the batches of events each call to
pygame.event.get() drains.  Returns the effect trace, the list of
surfaces presented by pygame.display.flip() in order, and the process
exit code: some 0 when a quit-intent event ends the process via
pygame.quit(); sys.exit(), none when the given batches are exhausted
with the loop still running. -/
def runLoop (s : Surface) : List (List PyEvent) → List Effect × List Surface × Option Nat
  | [] => ([], [], none)
  | batch :: rest =>
    if batch.any quitIntent then
      ([Effect.quitSubsystem, Effect.exitProcess 0], [], some 0)
    else
      let r := runLoop (s.fill (0, 0, 0)) rest
      (Effect.fill 0 0 0 :: Effect.flip :: r.1,
       s.fill (0, 0, 0) :: r.2.1, r.2.2)

/-- The effect trace of n quiet loop iterations: fill black, then flip,
each iteration. -/
def nqTrace : Nat → List Effect
  | 0 => []
  | n + 1 => Effect.fill 0 0 0 :: Effect.flip :: nqTrace n

/-- main(): construct the DisplayManager, then run the loop.  An
uncaught constructor exception terminates the process with status 1
before the loop starts; s0 is the (arbitrary) initial content of the
surface set_mode returns. -/
def pmain (fs : FileState) (s0 : Surface) (batches : List (List PyEvent)) :
    List Effect × Option Nat :=
  match dmInit fs with
  | (tr, .error _) => (tr, some 1)
  | (tr, .ok _) =>
    let r := runLoop s0 batches
    (tr ++ r.1, r.2.2)

/-- Boolean test for a failed constructor result. -/
def isErrorResult : Except ConfigError DMState → Bool
  | .error _ => true
  | .ok _ => false

/-- The DisplayConfig entity of the spec's data model. -/
structure DisplayConfig where
  width : Int
  height : Int
  fullscreen : Bool
deriving Repr, DecidableEq

/-- Modelled from the spec: the expected document shape of section 6
(display: width/height/fullscreen), into which a DisplayConfig is
serialized for the round-trip property. -/
def serializeConfig (c : DisplayConfig) : Yaml :=
  .mapV [("display", .mapV
    [("width", .intV c.width),
     ("height", .intV c.height),
     ("fullscreen", .boolV c.fullscreen)])]

/-- A quiet batch drains to fill-and-flip and hands the blackened
surface to the next iteration. -/
theorem runLoop_cons_quiet (s : Surface) (b : List PyEvent)
    (bs : List (List PyEvent)) (hb : b.any quitIntent = false) :
    runLoop s (b :: bs) =
      (Effect.fill 0 0 0 :: Effect.flip :: (runLoop blackSurface bs).1,
       blackSurface :: (runLoop blackSurface bs).2.1,
       (runLoop blackSurface bs).2.2) := by
  simp [runLoop, hb, Surface.fill, blackSurface]

/-- A batch with a quit-intent event ends the process at once. -/
theorem runLoop_cons_quit (s : Surface) (b : List PyEvent)
    (bs : List (List PyEvent)) (hb : b.any quitIntent = true) :
    runLoop s (b :: bs) =
      ([Effect.quitSubsystem, Effect.exitProcess 0], [], some 0) := by
  simp [runLoop, hb]

/-- With no quit-intent in any batch, the loop neither exits nor does
anything but fill black and flip, once per batch. -/
theorem runLoop_no_quit (s : Surface) (bs : List (List PyEvent))
    (h : ∀ b ∈ bs, b.any quitIntent = false) :
    runLoop s bs =
      (nqTrace bs.length, List.replicate bs.length blackSurface, none) := by
  induction bs generalizing s with
  | nil => rfl
  | cons b rest ih =>
    have hb : b.any quitIntent = false := h b (List.mem_cons_self b rest)
    have hr := ih blackSurface (fun x hx => h x (List.mem_cons_of_mem _ hx))
    rw [runLoop_cons_quiet s b rest hb, hr]
    simp [nqTrace, List.replicate]

/-- The loop's exit code: some 0 exactly when some batch holds a
quit-intent event, none otherwise. -/
theorem runLoop_exit_code (s : Surface) (bs : List (List PyEvent)) :
    (runLoop s bs).2.2 =
      if bs.any (fun b => b.any quitIntent) then some 0 else none := by
  induction bs generalizing s with
  | nil => rfl
  | cons b rest ih =>
    cases hb : b.any quitIntent with
    | true => rw [runLoop_cons_quit s b rest hb]; simp [hb]
    | false => rw [runLoop_cons_quiet s b rest hb]; simp [hb, ih blackSurface]

/-- A failed constructor leaves exactly the init-then-read trace. -/
theorem dmInit_error_shape (fs : FileState)
    (h : isErrorResult (dmInit fs).2 = true) :
    ∃ e, dmInit fs =
      ([Effect.initSubsystem, Effect.readConfigFile], .error e) := by
  cases fs with
  | absent => exact ⟨ConfigError.fileNotFound, rfl⟩
  | unreadable => exact ⟨ConfigError.parseError, rfl⟩
  | parsed d =>
    cases hw : displayField d "width" with
    | none =>
      exact ⟨ConfigError.missingKey ["display", "width"],
        by simp [dmInit, load_config, hw]⟩
    | some w =>
      cases hh : displayField d "height" with
      | none =>
        exact ⟨ConfigError.missingKey ["display", "height"],
          by simp [dmInit, load_config, hw, hh]⟩
      | some hv =>
        cases hf : displayField d "fullscreen" with
        | none =>
          exact ⟨ConfigError.missingKey ["display", "fullscreen"],
            by simp [dmInit, load_config, hw, hh, hf]⟩
        | some f =>
          exfalso
          simp [dmInit, load_config, hw, hh, hf, isErrorResult] at h

/-- A document missing one of the three display keys makes the
constructor fail with the spec's missing-key ConfigError, with no
set_mode issued. -/
theorem dmInit_missing_key (d : Yaml)
    (h : displayField d "width" = none ∨ displayField d "height" = none ∨
         displayField d "fullscreen" = none) :
    ∃ ks, dmInit (.parsed d) =
      ([Effect.initSubsystem, Effect.readConfigFile],
       .error (.missingKey ks)) := by
  rcases h with h | h | h
  · exact ⟨["display", "width"], by simp [dmInit, load_config, h]⟩
  · cases hw : displayField d "width" with
    | none => exact ⟨["display", "width"], by simp [dmInit, load_config, hw]⟩
    | some w => exact ⟨["display", "height"], by simp [dmInit, load_config, hw, h]⟩
  · cases hw : displayField d "width" with
    | none => exact ⟨["display", "width"], by simp [dmInit, load_config, hw]⟩
    | some w =>
      cases hh : displayField d "height" with
      | none => exact ⟨["display", "height"], by simp [dmInit, load_config, hw, hh]⟩
      | some hv =>
        exact ⟨["display", "fullscreen"], by simp [dmInit, load_config, hw, hh, h]⟩

/-- A quit-intent event in a batch makes the batch test positive. -/
theorem any_quitIntent_of_mem {batch : List PyEvent} {e : PyEvent}
    (he : e ∈ batch) (hq : quitIntent e = true) :
    batch.any quitIntent = true :=
  List.any_eq_true.mpr ⟨e, he, hq⟩

/-- After a quiet prefix, a batch with a quit-intent event ends the run:
the whole trace is the prefix's fill-and-flip pairs followed by
quitSubsystem and exitProcess 0, the presented frames are those of the
prefix only, and the exit status is 0. -/
theorem runLoop_prefix_quit (s : Surface) (bs₁ : List (List PyEvent))
    (batch : List PyEvent) (bs₂ : List (List PyEvent))
    (h₁ : ∀ b ∈ bs₁, b.any quitIntent = false)
    (h₂ : batch.any quitIntent = true) :
    runLoop s (bs₁ ++ batch :: bs₂) =
      (nqTrace bs₁.length ++ [Effect.quitSubsystem, Effect.exitProcess 0],
       List.replicate bs₁.length blackSurface, some 0) := by
  induction bs₁ generalizing s with
  | nil => simpa [nqTrace] using runLoop_cons_quit s batch bs₂ h₂
  | cons b rest ih =>
    have hb : b.any quitIntent = false := h₁ b (List.mem_cons_self b rest)
    have hr := ih blackSurface (fun x hx => h₁ x (List.mem_cons_of_mem _ hx))
    rw [List.cons_append, runLoop_cons_quiet s b _ hb, hr]
    simp [nqTrace, List.replicate]

/-- C1: if a window-close event is among the events drained in an
iteration, the loop terminates within that iteration with success exit
status (pygame.quit then sys.exit, status 0), and no frame is cleared or
presented after the close event is observed: the trace ends with
quitSubsystem and exitProcess 0, with no fill or flip in or after the
closing iteration. -/
theorem quit_by_close_terminates (s : Surface) (bs₁ : List (List PyEvent))
    (batch : List PyEvent) (bs₂ : List (List PyEvent))
    (h₁ : ∀ b ∈ bs₁, b.any quitIntent = false)
    (h₂ : PyEvent.quitEvent ∈ batch) :
    runLoop s (bs₁ ++ batch :: bs₂) =
      (nqTrace bs₁.length ++ [Effect.quitSubsystem, Effect.exitProcess 0],
       List.replicate bs₁.length blackSurface, some 0) :=
  runLoop_prefix_quit s bs₁ batch bs₂ h₁ (any_quitIntent_of_mem h₂ rfl)

/-- Witness for C1: a concrete run whose second drained batch holds a
window-close event stops there with status 0 and presents one frame. -/
theorem quit_by_close_terminates_witness :
    (∀ b ∈ [[PyEvent.otherEvent 1]], b.any quitIntent = false) ∧
    PyEvent.quitEvent ∈ [PyEvent.keyDown 5, PyEvent.quitEvent] ∧
    runLoop ⟨fun _ _ => (9, 9, 9)⟩
        ([[PyEvent.otherEvent 1]] ++
          [PyEvent.keyDown 5, PyEvent.quitEvent] :: [[PyEvent.quitEvent]]) =
      (nqTrace 1 ++ [Effect.quitSubsystem, Effect.exitProcess 0],
       List.replicate 1 blackSurface, some 0) :=
  ⟨by decide, by decide,
   quit_by_close_terminates ⟨fun _ _ => (9, 9, 9)⟩ [[PyEvent.otherEvent 1]]
     [PyEvent.keyDown 5, PyEvent.quitEvent] [[PyEvent.quitEvent]]
     (by decide) (by decide)⟩

/-- C2: a key-press event with key Escape, wherever it sits in the
drained batch, terminates the run with success status, and the run is
identical (same trace, same presented frames, same status) to the run
with a window-close event in its place. -/
theorem quit_by_escape_same_as_close (s : Surface) (bs₁ : List (List PyEvent))
    (pre post : List PyEvent) (rest : List (List PyEvent))
    (h₁ : ∀ b ∈ bs₁, b.any quitIntent = false) :
    runLoop s (bs₁ ++ (pre ++ PyEvent.keyDown K_ESCAPE :: post) :: rest) =
      (nqTrace bs₁.length ++ [Effect.quitSubsystem, Effect.exitProcess 0],
       List.replicate bs₁.length blackSurface, some 0) ∧
    runLoop s (bs₁ ++ (pre ++ PyEvent.keyDown K_ESCAPE :: post) :: rest) =
      runLoop s (bs₁ ++ (pre ++ PyEvent.quitEvent :: post) :: rest) := by
  have he : (pre ++ PyEvent.keyDown K_ESCAPE :: post).any quitIntent = true := by
    simp [quitIntent, K_ESCAPE]
  have hq : (pre ++ PyEvent.quitEvent :: post).any quitIntent = true := by
    simp [quitIntent]
  have r1 := runLoop_prefix_quit s bs₁ _ rest h₁ he
  have r2 := runLoop_prefix_quit s bs₁ _ rest h₁ hq
  exact ⟨r1, r1.trans r2.symm⟩

/-- Witness for C2: Escape drained in the first batch after one quiet
batch behaves exactly like a window-close event there. -/
theorem quit_by_escape_same_as_close_witness :
    (∀ b ∈ [[PyEvent.otherEvent 2]], b.any quitIntent = false) ∧
    (runLoop blackSurface
        ([[PyEvent.otherEvent 2]] ++
          ([PyEvent.otherEvent 0] ++ PyEvent.keyDown K_ESCAPE :: []) :: []) =
      (nqTrace 1 ++ [Effect.quitSubsystem, Effect.exitProcess 0],
       List.replicate 1 blackSurface, some 0) ∧
    runLoop blackSurface
        ([[PyEvent.otherEvent 2]] ++
          ([PyEvent.otherEvent 0] ++ PyEvent.keyDown K_ESCAPE :: []) :: []) =
      runLoop blackSurface
        ([[PyEvent.otherEvent 2]] ++
          ([PyEvent.otherEvent 0] ++ PyEvent.quitEvent :: []) :: [])) :=
  ⟨by decide,
   quit_by_escape_same_as_close blackSurface [[PyEvent.otherEvent 2]]
     [PyEvent.otherEvent 0] [] [] (by decide)⟩

/-- C3: the loop exits exactly when some drained batch holds a
quit-intent event, every exit carries status 0, and an iteration with no
quit-intent event does not exit but clears to black and presents — this
is the loop's only exit path. -/
theorem loop_exit_iff_quit_intent (s : Surface) (bs : List (List PyEvent)) :
    ((runLoop s bs).2.2 ≠ none ↔ ∃ b ∈ bs, b.any quitIntent = true) ∧
    (∀ ec, (runLoop s bs).2.2 = some ec → ec = 0) ∧
    ((∀ b ∈ bs, b.any quitIntent = false) →
      runLoop s bs =
        (nqTrace bs.length, List.replicate bs.length blackSurface, none)) := by
  refine ⟨?_, ?_, runLoop_no_quit s bs⟩
  · rw [runLoop_exit_code]
    cases h : bs.any (fun b => b.any quitIntent) with
    | true =>
      simp only [if_true]
      simp [List.any_eq_true] at h
      simp [h]
    | false =>
      simp [List.any_eq_false] at h
      simpa using h
  · intro ec hec
    rw [runLoop_exit_code] at hec
    cases h : bs.any (fun b => b.any quitIntent) with
    | true => rw [h] at hec; simp at hec; omega
    | false => rw [h] at hec; simp at hec

/-- Witness for C3 at a concrete quiet-then-quit pair of runs. -/
theorem loop_exit_iff_quit_intent_witness :
    ((runLoop blackSurface [[PyEvent.keyDown 3]]).2.2 ≠ none ↔
      ∃ b ∈ [[PyEvent.keyDown 3]], b.any quitIntent = true) ∧
    (∀ ec, (runLoop blackSurface [[PyEvent.keyDown 3]]).2.2 = some ec → ec = 0) ∧
    ((∀ b ∈ [[PyEvent.keyDown 3]], b.any quitIntent = false) →
      runLoop blackSurface [[PyEvent.keyDown 3]] =
        (nqTrace 1, List.replicate 1 blackSurface, none)) :=
  loop_exit_iff_quit_intent blackSurface [[PyEvent.keyDown 3]]

/-- C4: over any number of iterations with no quit-intent, every
presented frame is the all-black surface — every pixel is (0, 0, 0) —
and the presented frames are the same whatever the surface held before
the run (clearing is total, not incremental). -/
theorem idempotent_clear (s s' : Surface) (bs : List (List PyEvent))
    (h : ∀ b ∈ bs, b.any quitIntent = false) :
    (runLoop s bs).2.1 = List.replicate bs.length blackSurface ∧
    (runLoop s bs).2.1 = (runLoop s' bs).2.1 ∧
    ∀ f ∈ (runLoop s bs).2.1, ∀ x y, f.pixels x y = (0, 0, 0) := by
  have h1 := runLoop_no_quit s bs h
  have h2 := runLoop_no_quit s' bs h
  refine ⟨by rw [h1], by rw [h1, h2], ?_⟩
  intro f hf x y
  rw [h1] at hf
  rw [List.eq_of_mem_replicate hf]
  rfl

/-- Witness for C4: two quiet iterations from two differently dirtied
surfaces present the same two all-black frames. -/
theorem idempotent_clear_witness :
    (∀ b ∈ [[PyEvent.otherEvent 3], []], b.any quitIntent = false) ∧
    ((runLoop ⟨fun _ _ => (7, 7, 7)⟩ [[PyEvent.otherEvent 3], []]).2.1 =
      List.replicate 2 blackSurface ∧
    (runLoop ⟨fun _ _ => (7, 7, 7)⟩ [[PyEvent.otherEvent 3], []]).2.1 =
      (runLoop ⟨fun _ _ => (1, 2, 3)⟩ [[PyEvent.otherEvent 3], []]).2.1 ∧
    ∀ f ∈ (runLoop ⟨fun _ _ => (7, 7, 7)⟩ [[PyEvent.otherEvent 3], []]).2.1,
      ∀ x y, f.pixels x y = (0, 0, 0)) :=
  ⟨by decide,
   idempotent_clear ⟨fun _ _ => (7, 7, 7)⟩ ⟨fun _ _ => (1, 2, 3)⟩
     [[PyEvent.otherEvent 3], []] (by decide)⟩

/-- C5: for every DisplayConfig written in the expected document shape,
the constructor requests via set_mode a surface of exactly the
configured width and height, with flags 0 (windowed) when fullscreen is
false and FULLSCREEN (exclusive fullscreen, a nonzero flag, so never
silently ignored) when it is true. -/
theorem fullscreen_flag_respected (c : DisplayConfig) :
    dmInit (.parsed (serializeConfig c)) =
      ([Effect.initSubsystem, Effect.readConfigFile,
        Effect.setMode (.intV c.width) (.intV c.height)
          (if c.fullscreen then FULLSCREEN else 0),
        Effect.setCaption "Digital Life"],
       .ok { config := serializeConfig c }) ∧
    FULLSCREEN ≠ 0 := by
  refine ⟨?_, by decide⟩
  obtain ⟨w, h, b⟩ := c
  cases b <;> rfl

/-- C6: with the config file absent the loader fails with the
file-not-found ConfigError, the process exits with status 1 (not the
success status 0), and no set_mode call — no window creation — is ever
attempted. -/
theorem missing_file_no_window (s0 : Surface) (batches : List (List PyEvent)) :
    load_config .absent = .error .fileNotFound ∧
    pmain .absent s0 batches =
      ([Effect.initSubsystem, Effect.readConfigFile], some 1) ∧
    (pmain .absent s0 batches).2 ≠ some 0 ∧
    ∀ w h fl, Effect.setMode w h fl ∉ (pmain .absent s0 batches).1 := by
  refine ⟨rfl, rfl, by simp [pmain, dmInit, load_config], ?_⟩
  intro w h fl
  simp [pmain, dmInit, load_config]

/-- C7: a parsed document whose display width, height or fullscreen key
is absent makes the program fail fatally with the missing-key
ConfigError and exit with status 1, not 0; no set_mode is issued, so no
default is ever substituted for a missing key. -/
theorem missing_key_fatal (d : Yaml) (s0 : Surface)
    (batches : List (List PyEvent))
    (h : displayField d "width" = none ∨ displayField d "height" = none ∨
         displayField d "fullscreen" = none) :
    (∃ ks, (dmInit (.parsed d)).2 = .error (.missingKey ks)) ∧
    (pmain (.parsed d) s0 batches).2 = some 1 ∧
    (pmain (.parsed d) s0 batches).2 ≠ some 0 ∧
    ∀ w hh fl, Effect.setMode w hh fl ∉ (pmain (.parsed d) s0 batches).1 := by
  obtain ⟨ks, hks⟩ := dmInit_missing_key d h
  refine ⟨⟨ks, by rw [hks]⟩, ?_, ?_, ?_⟩ <;> simp [pmain, hks]

/-- Witness for C7: a document carrying width and height but no
fullscreen key is fatal. -/
theorem missing_key_fatal_witness :
    (displayField (Yaml.mapV [("display", Yaml.mapV
        [("width", Yaml.intV 800), ("height", Yaml.intV 600)])]) "width" = none ∨
     displayField (Yaml.mapV [("display", Yaml.mapV
        [("width", Yaml.intV 800), ("height", Yaml.intV 600)])]) "height" = none ∨
     displayField (Yaml.mapV [("display", Yaml.mapV
        [("width", Yaml.intV 800), ("height", Yaml.intV 600)])]) "fullscreen" = none) ∧
    ((∃ ks, (dmInit (.parsed (Yaml.mapV [("display", Yaml.mapV
        [("width", Yaml.intV 800), ("height", Yaml.intV 600)])]))).2 =
          .error (.missingKey ks)) ∧
     (pmain (.parsed (Yaml.mapV [("display", Yaml.mapV
        [("width", Yaml.intV 800), ("height", Yaml.intV 600)])]))
        blackSurface []).2 = some 1 ∧
     (pmain (.parsed (Yaml.mapV [("display", Yaml.mapV
        [("width", Yaml.intV 800), ("height", Yaml.intV 600)])]))
        blackSurface []).2 ≠ some 0 ∧
     ∀ w hh fl, Effect.setMode w hh fl ∉
       (pmain (.parsed (Yaml.mapV [("display", Yaml.mapV
          [("width", Yaml.intV 800), ("height", Yaml.intV 600)])]))
          blackSurface []).1) :=
  ⟨Or.inr (Or.inr rfl),
   missing_key_fatal (Yaml.mapV [("display", Yaml.mapV
      [("width", Yaml.intV 800), ("height", Yaml.intV 600)])])
     blackSurface [] (Or.inr (Or.inr rfl))⟩

/-- C8: a DisplayConfig with positive width and height serialized into
the expected document shape is reproduced by the loader: the stored
document holds exactly the three original field values. -/
theorem config_round_trip (c : DisplayConfig)
    (_hw : 0 < c.width) (_hh : 0 < c.height) :
    load_config (.parsed (serializeConfig c)) = .ok (serializeConfig c) ∧
    displayField (serializeConfig c) "width" = some (.intV c.width) ∧
    displayField (serializeConfig c) "height" = some (.intV c.height) ∧
    displayField (serializeConfig c) "fullscreen" = some (.boolV c.fullscreen) :=
  ⟨rfl, rfl, rfl, rfl⟩

/-- Witness for C8 at the concrete config 800 by 600 windowed. -/
theorem config_round_trip_witness :
    0 < (800 : Int) ∧ 0 < (600 : Int) ∧
    (load_config (.parsed (serializeConfig ⟨800, 600, false⟩)) =
        .ok (serializeConfig ⟨800, 600, false⟩) ∧
     displayField (serializeConfig ⟨800, 600, false⟩) "width" =
        some (.intV 800) ∧
     displayField (serializeConfig ⟨800, 600, false⟩) "height" =
        some (.intV 600) ∧
     displayField (serializeConfig ⟨800, 600, false⟩) "fullscreen" =
        some (.boolV false)) :=
  ⟨by decide, by decide,
   config_round_trip ⟨800, 600, false⟩ (by decide) (by decide)⟩

/-- C9: pygame.init() runs before load_config — the trace starts with
initSubsystem and the file read comes second — and on every fatal
configuration error the trace ends there: the subsystem stays
initialized, quitSubsystem never appears, and the process exits with
status 1. -/
theorem init_before_config_not_released (fs : FileState)
    (h : isErrorResult (dmInit fs).2 = true) :
    (dmInit fs).1 = [Effect.initSubsystem, Effect.readConfigFile] ∧
    (dmInit fs).1.head? = some Effect.initSubsystem ∧
    Effect.quitSubsystem ∉ (dmInit fs).1 ∧
    ∀ s0 batches, pmain fs s0 batches = ((dmInit fs).1, some 1) ∧
      Effect.quitSubsystem ∉ (pmain fs s0 batches).1 := by
  obtain ⟨e, he⟩ := dmInit_error_shape fs h
  refine ⟨by rw [he], by rw [he]; rfl, by rw [he]; simp, ?_⟩
  intro s0 batches
  exact ⟨by simp [pmain, he], by simp [pmain, he]⟩

/-- Witness for C9 at the absent-file error path. -/
theorem init_before_config_not_released_witness :
    isErrorResult (dmInit .absent).2 = true ∧
    ((dmInit .absent).1 = [Effect.initSubsystem, Effect.readConfigFile] ∧
     (dmInit .absent).1.head? = some Effect.initSubsystem ∧
     Effect.quitSubsystem ∉ (dmInit .absent).1 ∧
     ∀ s0 batches, pmain .absent s0 batches = ((dmInit .absent).1, some 1) ∧
       Effect.quitSubsystem ∉ (pmain .absent s0 batches).1) :=
  ⟨rfl, init_before_config_not_released .absent rfl⟩

/-- C10: the loader succeeds on every document that parses, storing it
unvalidated; in particular on a document missing a display key the
loader still succeeds, and the missing-key failure arises only later, in
the constructor before set_mode. -/
theorem loader_no_validation (d : Yaml)
    (h : displayField d "width" = none ∨ displayField d "height" = none ∨
         displayField d "fullscreen" = none) :
    (∀ d' : Yaml, load_config (.parsed d') = .ok d') ∧
    load_config (.parsed d) = .ok d ∧
    ∃ ks, dmInit (.parsed d) =
      ([Effect.initSubsystem, Effect.readConfigFile],
       .error (.missingKey ks)) :=
  ⟨fun _ => rfl, rfl, dmInit_missing_key d h⟩

/-- Witness for C10: a document holding only a width key passes the
loader and fails in the constructor. -/
theorem loader_no_validation_witness :
    (displayField (Yaml.mapV [("display", Yaml.mapV
        [("width", Yaml.intV 320)])]) "width" = none ∨
     displayField (Yaml.mapV [("display", Yaml.mapV
        [("width", Yaml.intV 320)])]) "height" = none ∨
     displayField (Yaml.mapV [("display", Yaml.mapV
        [("width", Yaml.intV 320)])]) "fullscreen" = none) ∧
    ((∀ d' : Yaml, load_config (.parsed d') = .ok d') ∧
     load_config (.parsed (Yaml.mapV [("display", Yaml.mapV
        [("width", Yaml.intV 320)])])) =
       .ok (Yaml.mapV [("display", Yaml.mapV [("width", Yaml.intV 320)])]) ∧
     ∃ ks, dmInit (.parsed (Yaml.mapV [("display", Yaml.mapV
        [("width", Yaml.intV 320)])])) =
       ([Effect.initSubsystem, Effect.readConfigFile],
        .error (.missingKey ks))) :=
  ⟨Or.inr (Or.inl rfl),
   loader_no_validation (Yaml.mapV [("display", Yaml.mapV
      [("width", Yaml.intV 320)])]) (Or.inr (Or.inl rfl))⟩

end DigitalLife
